import Mathlib

/-!
Shallow embedding of the swiggy-data-insights dashboard (src/dashboard.py).

The repository is a single-file Dash application.  Its analytic core is:
  * a load/normalize phase (dashboard.py lines 11-42): column-name cleanup,
    the required-column schema check, free-text `delivery_time` digit
    extraction, numeric `price` coercion, and dropping rows whose
    `avg_ratings` is null;
  * the callback `update_dashboard` (lines 208-341): sequential equality /
    range filters over the dataframe, an empty-subset short-circuit,
    dependent dropdown option sets, KPI distinct counts, and a table of the
    filtered rows sorted by `avg_ratings` descending truncated to 100.

Numeric cell values are modelled as `Rat` (pandas floats in the source carry
exact decimal literals in every behaviour the spec talks about), nullable
cells as `Option`, and a dataframe as a `List` of per-row structures.
-/

namespace Swiggy

/-- Record: one normalized dataset row (spec section 3).  String-valued cells
may be null (pandas NaN); `avg_ratings` is non-null by the load invariant
(dashboard.py line 38 drops null-rating rows); `price` and `delivery_time`
are nullable numerics after coercion. -/
structure Record where
  city : Option String
  area : Option String
  restaurant : Option String
  food_type : Option String
  avg_ratings : Rat
  price : Option Rat
  delivery_time : Option Rat
deriving DecidableEq

/-- FilterSpec: the five callback inputs of `update_dashboard`
(dashboard.py lines 200-208).  Dropdown values are nullable strings, the
two sliders deliver closed intervals (nullable, the callback guards them
with `is not None`). -/
structure FilterSpec where
  city : Option String
  area : Option String
  food_type : Option String
  rating_range : Option (Rat × Rat)
  price_range : Option (Rat × Rat)
deriving DecidableEq

/-- Python truthiness of an optional string, as used by the guards
`if city:` / `if area:` / `if food_type:` at dashboard.py lines 213-218:
both `None` and the empty string are falsy. -/
def truthy : Option String → Bool
  | none => false
  | some s => !s.isEmpty

/-- Sequential filter pipeline of `update_dashboard`, dashboard.py lines
210-230: equality masks applied only under truthiness guards, then the
inclusive rating mask, then the inclusive price mask.  A pandas comparison
with a NaN cell is `False`, hence a null `city`/`area`/`food_type` never
equals a filter value and a null `price` fails both price bounds. -/
def filterData (ds : List Record) (f : FilterSpec) : List Record :=
  let d1 := if truthy f.city then ds.filter (fun r => r.city == f.city) else ds
  let d2 := if truthy f.area then d1.filter (fun r => r.area == f.area) else d1
  let d3 := if truthy f.food_type then d2.filter (fun r => r.food_type == f.food_type) else d2
  let d4 :=
    match f.rating_range with
    | none => d3
    | some (lo, hi) =>
        d3.filter (fun r => decide (lo ≤ r.avg_ratings) && decide (r.avg_ratings ≤ hi))
  match f.price_range with
  | none => d4
  | some (lo, hi) =>
      d4.filter (fun r =>
        match r.price with
        | none => false
        | some p => decide (lo ≤ p) && decide (p ≤ hi))

/-- Conjunction of all five row predicates of the filter pipeline; proved
below to characterise `filterData` as a single `List.filter`. -/
def matchesSpec (f : FilterSpec) (r : Record) : Bool :=
  (!truthy f.city || r.city == f.city) &&
  ((!truthy f.area || r.area == f.area) &&
  ((!truthy f.food_type || r.food_type == f.food_type) &&
  ((match f.rating_range with
    | none => true
    | some (lo, hi) => decide (lo ≤ r.avg_ratings) && decide (r.avg_ratings ≤ hi)) &&
  (match f.price_range with
   | none => true
   | some (lo, hi) =>
       match r.price with
       | none => false
       | some p => decide (lo ≤ p) && decide (p ≤ hi)))))

theorem filterData_eq (ds : List Record) (f : FilterSpec) :
    filterData ds f = ds.filter (matchesSpec f) := by
  obtain ⟨c, a, t, rr, pr⟩ := f
  unfold filterData matchesSpec
  cases hc : truthy c <;> cases ha : truthy a <;> cases ht : truthy t <;>
    rcases rr with _ | ⟨lo, hi⟩ <;> rcases pr with _ | ⟨plo, phi⟩ <;>
      simp [hc, ha, ht, List.filter_filter] <;>
      first
        | rfl
        | (refine List.filter_congr (fun r _ => ?_)
           cases r.price <;>
              simp [Bool.and_assoc, Bool.and_comm, Bool.and_left_comm])

theorem mem_filterData {ds : List Record} {f : FilterSpec} {r : Record} :
    r ∈ filterData ds f ↔ r ∈ ds ∧ matchesSpec f r = true := by
  rw [filterData_eq, List.mem_filter]

/-- Ascending comparison on `avg_ratings`.  The dashboard's table sort
(dashboard.py line 336, `sort_values("avg_ratings", ascending=False)`) is
realised by pandas `nargsort` as an ascending argsort followed by index
reversal; numpy's argsort on small partitions is an insertion sort, so the
ascending pass is modelled by the stable `List.insertionSort` on this
relation and the descending result by `List.reverse`. -/
def ratingLe (x y : Record) : Prop := x.avg_ratings ≤ y.avg_ratings

instance : DecidableRel ratingLe := fun x y =>
  inferInstanceAs (Decidable (x.avg_ratings ≤ y.avg_ratings))

instance : IsTotal Record ratingLe := ⟨fun x y => le_total x.avg_ratings y.avg_ratings⟩

instance : IsTrans Record ratingLe := ⟨fun _ _ _ h₁ h₂ => le_trans h₁ h₂⟩

/-- Descending comparison on `avg_ratings`, used to state sortedness of the
table and the claimed (stable-descending) ordering. -/
def ratingGe (x y : Record) : Prop := y.avg_ratings ≤ x.avg_ratings

instance : DecidableRel ratingGe := fun x y =>
  inferInstanceAs (Decidable (y.avg_ratings ≤ x.avg_ratings))

instance : IsTotal Record ratingGe := ⟨fun x y => le_total y.avg_ratings x.avg_ratings⟩

instance : IsTrans Record ratingGe := ⟨fun _ _ _ h₁ h₂ => le_trans h₂ h₁⟩

/-- Distinct non-null count of a string column, pandas `Series.nunique`
(dashboard.py lines 245-260, the KPI cards). -/
def nunique (l : List (Option String)) : Nat := (l.filterMap id).dedup.length

/-- Ascending sorted distinct non-null values of a string column:
`sorted(series.dropna().unique())` at dashboard.py lines 239-240. -/
def sortedOptions (l : List (Option String)) : List String :=
  ((l.filterMap id).dedup).insertionSort (fun x y => x ≤ y)

/-- EngineResult: the callback outputs that carry data (the figure outputs
are presentation-only and carry the same filtered frame).  `kpi` is the list
of the four distinct counts shown on the KPI cards, in source order
city/area/restaurant/food_type. -/
structure EngineResult where
  area_options : List String
  food_options : List String
  kpi : List Nat
  table_data : List Record
deriving DecidableEq

/-- EngineResult returned by the empty-subset short-circuit at
dashboard.py lines 233-236 (`return [], [], [], ..., []`). -/
def emptyResult : EngineResult := ⟨[], [], [], []⟩

/-- Engine evaluation: the data outputs of the callback `update_dashboard`
(dashboard.py lines 208-341).  Filter pipeline, empty short-circuit,
dependent option sets, KPI distinct counts, and the table of the subset
sorted by `avg_ratings` descending (ascending stable sort then reversal,
see `ratingLe`) truncated to the first 100 rows (`head(100)`). -/
def update_dashboard (ds : List Record) (f : FilterSpec) : EngineResult :=
  let data := filterData ds f
  if data.isEmpty then emptyResult
  else
    { area_options := sortedOptions (data.map (·.area))
      food_options := sortedOptions (data.map (·.food_type))
      kpi := [nunique (data.map (·.city)), nunique (data.map (·.area)),
              nunique (data.map (·.restaurant)), nunique (data.map (·.food_type))]
      table_data := ((data.insertionSort ratingLe).reverse).take 100 }

/-- Modelled from claim C2's words (spec section 4.2 step 7): the Top-N
Table as a stable descending sort that preserves the original relative
order of records with equal `avg_ratings`, truncated to 100 rows.  Stated
only for comparison against `update_dashboard`. -/
def claimedTopN (ds : List Record) (f : FilterSpec) : List Record :=
  ((filterData ds f).insertionSort ratingGe).take 100

/-- Required logical columns of the input table, dashboard.py line 21. -/
def required_cols : List String :=
  ["city", "area", "restaurant", "avg_ratings", "price", "delivery_time", "food_type"]

/-- Leading and trailing whitespace removal on the character list, the
effect of `str.strip` (and of `String.trim`) on a string's characters. -/
def trimChars (l : List Char) : List Char :=
  ((l.dropWhile (·.isWhitespace)).reverse.dropWhile (·.isWhitespace)).reverse

/-- Column-name normalization of dashboard.py lines 14-18: strip
whitespace, lower-case, replace spaces with underscores. -/
def normalizeCol (s : String) : String :=
  ⟨((trimChars s.data).map Char.toLower).map (fun ch => if ch = ' ' then '_' else ch)⟩

/-- Missing-column computation of dashboard.py line 22:
`[c for c in required_cols if c not in df.columns]`, where `df.columns`
has already been normalized. -/
def missingCols (cols : List String) : List String :=
  required_cols.filter (fun c => !(cols.map normalizeCol).contains c)

/-- Numeric value of a digit run (most significant digit first). -/
def digitsToNat (l : List Char) : Nat :=
  l.foldl (fun n ch => 10 * n + (ch.toNat - 48)) 0

/-- First maximal run of digit characters, if any: the regex capture
`(\d+)` of `str.extract` at dashboard.py line 30. -/
def firstDigitRun : List Char → Option (List Char)
  | [] => none
  | ch :: cs =>
      if ch.isDigit then some (ch :: cs.takeWhile (·.isDigit))
      else firstDigitRun cs

/-- Free-text `delivery_time` normalization of dashboard.py lines 27-32:
extract the first run of digits and convert it to a number; a value with
no digit yields null.  Total, hence never an error. -/
def deliveryTimeNorm (s : String) : Option Rat :=
  (firstDigitRun s.data).map (fun l => mkRat (digitsToNat l) 1)

/-- Numeric coercion of `price`, dashboard.py line 35
(`pd.to_numeric(..., errors="coerce")`), modelled on decimal literals:
optional surrounding whitespace, optional sign, digits with an optional
fractional part.  Any other shape coerces to null; the function is total,
so coercion never raises and never rejects a row. -/
def parseNumeric (s : String) : Option Rat :=
  let l := trimChars s.data
  let sgn : Int × List Char :=
    match l with
    | '-' :: rest => (-1, rest)
    | '+' :: rest => (1, rest)
    | _ => (1, l)
  let intPart := sgn.2.takeWhile (·.isDigit)
  let rest := sgn.2.dropWhile (·.isDigit)
  match rest with
  | [] =>
      if intPart.isEmpty then none
      else some (mkRat (sgn.1 * (digitsToNat intPart : Int)) 1)
  | '.' :: fracRest =>
      let fracPart := fracRest.takeWhile (·.isDigit)
      let rest2 := fracRest.dropWhile (·.isDigit)
      if rest2.isEmpty && !(intPart.isEmpty && fracPart.isEmpty) then
        some (mkRat
          (sgn.1 * ((digitsToNat intPart * 10 ^ fracPart.length + digitsToNat fracPart : Nat) : Int))
          (10 ^ fracPart.length))
      else none
  | _ => none

/-- RawRow: one row of the input table as read, before normalization.
`avg_ratings` is whatever numeric the reader produced (null when missing);
`price` and `delivery_time` are raw cells (null = NaN). -/
structure RawRow where
  city : Option String
  area : Option String
  restaurant : Option String
  food_type : Option String
  avg_ratings : Option Rat
  price : Option String
  delivery_time : Option String
deriving DecidableEq

/-- Per-row normalization and the null-rating drop of dashboard.py lines
27-38: rows with null `avg_ratings` yield no Record; `price` coerces via
`parseNumeric` (a null cell stays null); `delivery_time` goes through
`astype(str)` (NaN prints as "nan", which has no digits) then digit
extraction. -/
def rowToRecord (row : RawRow) : Option Record :=
  row.avg_ratings.map (fun a =>
    { city := row.city, area := row.area, restaurant := row.restaurant,
      food_type := row.food_type, avg_ratings := a,
      price := row.price.bind parseNumeric,
      delivery_time := deliveryTimeNorm (row.delivery_time.getD "nan") })

/-- Dataset load of dashboard.py lines 11-38: normalize column names, fail
with the list of missing required columns if any (line 23-24 `raise
ValueError`), otherwise normalize every row and drop null-rating rows. -/
def loadDataset (cols : List String) (rows : List RawRow) :
    Except (List String) (List Record) :=
  if (missingCols cols).isEmpty then Except.ok (rows.filterMap rowToRecord)
  else Except.error (missingCols cols)

/-! Concrete fixtures used by witnesses and counterexamples.  `exampleDs`
carries the rating sequence [4.1, 4.8, 4.8, 3.9] of spec section 8's
Top-N ordering scenario. -/

/-- Fixture row, rating 4.1. -/
def rec0 : Record :=
  ⟨some "Delhi", some "Saket", some "r0", some "Indian", mkRat 41 10, some 100, some 30⟩

/-- Fixture row, rating 4.8, first of the tied pair. -/
def rec1 : Record :=
  ⟨some "Delhi", some "Saket", some "r1", some "Indian", mkRat 48 10, some 200, some 35⟩

/-- Fixture row, rating 4.8, second of the tied pair. -/
def rec2 : Record :=
  ⟨some "Bombay", some "Andheri", some "r2", some "Chinese", mkRat 48 10, some 300, some 40⟩

/-- Fixture row, rating 3.9, null price. -/
def rec3 : Record :=
  ⟨some "Bombay", some "Andheri", some "r3", some "Chinese", mkRat 39 10, none, some 45⟩

/-- Fixture dataset with ratings [4.1, 4.8, 4.8, 3.9]. -/
def exampleDs : List Record := [rec0, rec1, rec2, rec3]

/-- Filter Specification with every field absent. -/
def fNone : FilterSpec := ⟨none, none, none, none, none⟩

/-- Filter Specification with all five dimensions active. -/
def fFull : FilterSpec :=
  ⟨some "Delhi", some "Saket", some "Indian", some (4, mkRat 42 10), some (50, 150)⟩

/-- Filter Specification whose city field is the empty string. -/
def fEmptyCity : FilterSpec := ⟨some "", none, none, none, none⟩

/-- Filter Specification whose rating interval excludes every fixture row. -/
def fImpossible : FilterSpec := ⟨none, none, none, some (5, 6), none⟩

/-- Filter Specification selecting only the city Delhi. -/
def fCityDelhi : FilterSpec := ⟨some "Delhi", none, none, none, none⟩

/-- C1 (amended): every Record of the Filtered Subset satisfies all active
predicates — equality with each categorical filter value when that field is
present as a non-empty string (the callback's truthiness guard also skips
the filter when the supplied value is the empty string; an absent field
imposes no restriction), `avg_ratings` within the supplied closed rating
interval, and `price` non-null and within the supplied closed price
interval, so a null-price Record is excluded by an active price filter. -/
theorem filtered_subset_satisfies_predicates (ds : List Record) (f : FilterSpec)
    (r : Record) (h : r ∈ filterData ds f) :
    (∀ c, f.city = some c → c ≠ "" → r.city = some c) ∧
    (∀ a, f.area = some a → a ≠ "" → r.area = some a) ∧
    (∀ t, f.food_type = some t → t ≠ "" → r.food_type = some t) ∧
    (∀ lo hi, f.rating_range = some (lo, hi) →
      lo ≤ r.avg_ratings ∧ r.avg_ratings ≤ hi) ∧
    (∀ lo hi, f.price_range = some (lo, hi) →
      ∃ p, r.price = some p ∧ lo ≤ p ∧ p ≤ hi) := by
  have hm := (mem_filterData.mp h).2
  unfold matchesSpec at hm
  simp only [Bool.and_eq_true] at hm
  obtain ⟨h1, h2, h3, h4, h5⟩ := hm
  refine ⟨?_, ?_, ?_, ?_, ?_⟩
  · intro c hc hne
    rw [hc] at h1
    simpa [truthy, String.isEmpty_iff, hne] using h1
  · intro a ha hne
    rw [ha] at h2
    simpa [truthy, String.isEmpty_iff, hne] using h2
  · intro t ht hne
    rw [ht] at h3
    simpa [truthy, String.isEmpty_iff, hne] using h3
  · intro lo hi heq
    rw [heq] at h4
    simpa using h4
  · intro lo hi heq
    rw [heq] at h5
    cases hp : r.price with
    | none => rw [hp] at h5; simp at h5
    | some p =>
        rw [hp] at h5
        simp only [Bool.and_eq_true, decide_eq_true_eq] at h5
        exact ⟨p, rfl, h5.1, h5.2⟩

/-- Witness for C1's amended theorem at a concrete five-filter spec. -/
theorem filtered_subset_satisfies_predicates_witness :
    rec0 ∈ filterData exampleDs fFull ∧ rec0.city = some "Delhi" ∧
      ∃ p, rec0.price = some p ∧ (50 : Rat) ≤ p ∧ p ≤ 150 := by
  have h : rec0 ∈ filterData exampleDs fFull := by decide
  have hthm := filtered_subset_satisfies_predicates exampleDs fFull rec0 h
  exact ⟨h, hthm.1 "Delhi" rfl (by decide), hthm.2.2.2.2 50 150 rfl⟩

/-- Counterexample to C1 as stated: with the city field present but equal
to the empty string, a Record whose city is "Delhi" is kept in the
Filtered Subset although it does not equal the filter value — the code's
truthiness guard skips the equality filter for the empty string. -/
theorem empty_city_filter_keeps_nonmatching_record :
    fEmptyCity.city = some "" ∧ rec0 ∈ filterData [rec0] fEmptyCity ∧
      rec0.city ≠ some "" := by
  exact ⟨rfl, by decide, by decide⟩

/-- C2 (amended): the Top-N Table is a truncation to 100 rows of a list
that is sorted by `avg_ratings` descending and is a permutation of the
Filtered Subset; on the spec's own example ratings [4.1, 4.8, 4.8, 3.9],
the two tied 4.8 records appear in reversed original relative order
(pandas realises `ascending=False` as an ascending argsort followed by
index reversal). -/
theorem topN_sorted_desc_perm_truncated (ds : List Record) (f : FilterSpec) :
    (∃ l : List Record, l.Perm (filterData ds f) ∧ l.Sorted ratingGe ∧
        (update_dashboard ds f).table_data = l.take 100) ∧
    (update_dashboard exampleDs fNone).table_data = [rec2, rec1, rec0, rec3] := by
  constructor
  · cases hE : (filterData ds f).isEmpty
    · refine ⟨((filterData ds f).insertionSort ratingLe).reverse, ?_, ?_, ?_⟩
      · exact ((filterData ds f).insertionSort ratingLe).reverse_perm.trans
          (List.perm_insertionSort ratingLe (filterData ds f))
      · rw [List.Sorted, List.pairwise_reverse]
        exact List.sorted_insertionSort ratingLe (filterData ds f)
      · simp [update_dashboard, hE]
    · refine ⟨[], ?_, List.sorted_nil, ?_⟩
      · rw [List.isEmpty_iff] at hE
        rw [hE]
      · simp [update_dashboard, hE, emptyResult]
  · decide

/-- Counterexample to C2 as stated: on ratings [4.1, 4.8, 4.8, 3.9] the
code's Top-N Table orders the tied 4.8 records in reversed original order,
while a stable descending sort (the claim's wording, `claimedTopN`) keeps
their original order; the two tables differ. -/
theorem topN_tie_order_not_preserved :
    (update_dashboard exampleDs fNone).table_data ≠ claimedTopN exampleDs fNone ∧
    (update_dashboard exampleDs fNone).table_data = [rec2, rec1, rec0, rec3] ∧
    claimedTopN exampleDs fNone = [rec1, rec2, rec0, rec3] ∧
    exampleDs.map Record.avg_ratings = [mkRat 41 10, mkRat 48 10, mkRat 48 10, mkRat 39 10] := by
  refine ⟨by decide, by decide, by decide, by decide⟩

/-- C3: a Filter Specification whose predicates match no Record produces
the empty EngineResult — empty option sets, empty KPI aggregate list and
empty Top-N Table — via the short-circuit branch; `update_dashboard` is a
total function, so the empty subset is a representable state and never an
error. -/
theorem empty_subset_returns_empty_result (ds : List Record) (f : FilterSpec)
    (h : ∀ r ∈ ds, matchesSpec f r = false) :
    update_dashboard ds f = emptyResult := by
  have hdata : filterData ds f = [] := by
    rw [filterData_eq]
    simp only [List.filter_eq_nil_iff]
    intro a ha
    simp [h a ha]
  simp [update_dashboard, hdata]

/-- Witness for C3 at a rating interval excluding every fixture row. -/
theorem empty_subset_returns_empty_result_witness :
    (∀ r ∈ exampleDs, matchesSpec fImpossible r = false) ∧
      update_dashboard exampleDs fImpossible = emptyResult :=
  ⟨by decide, empty_subset_returns_empty_result exampleDs fImpossible (by decide)⟩

/-- C4: engine evaluation is a deterministic pure function of the pair
(dataset, Filter Specification): any two calls on identical inputs return
identical EngineResults; the embedding has no other state. -/
theorem evaluate_deterministic (ds ds2 : List Record) (f f2 : FilterSpec)
    (hds : ds = ds2) (hf : f = f2) :
    update_dashboard ds f = update_dashboard ds2 f2 := by
  rw [hds, hf]

/-- Witness for C4 on the fixture dataset. -/
theorem evaluate_deterministic_witness :
    update_dashboard exampleDs fNone = update_dashboard exampleDs fNone :=
  evaluate_deterministic exampleDs exampleDs fNone fNone rfl rfl

/-- Narrowing of one categorical filter dimension, in the sense of claim
C5: the wider spec leaves the dimension inactive (absent or empty string),
or both specs constrain it identically. -/
def catNarrower (a b : Option String) : Prop := truthy b = false ∨ a = b

/-- Narrowing of one range dimension: the wider spec has no interval, or
both have intervals and the narrow one is contained in the wide one. -/
def rangeNarrower : Option (Rat × Rat) → Option (Rat × Rat) → Prop
  | _, none => True
  | a, some (lo, hi) => ∃ lo2 hi2, a = some (lo2, hi2) ∧ lo ≤ lo2 ∧ hi2 ≤ hi

/-- Narrower f g: Filter Specification f narrows g on every dimension
(adds categorical constraints g leaves inactive, shrinks g's intervals). -/
def Narrower (f g : FilterSpec) : Prop :=
  catNarrower f.city g.city ∧ catNarrower f.area g.area ∧
  catNarrower f.food_type g.food_type ∧
  rangeNarrower f.rating_range g.rating_range ∧
  rangeNarrower f.price_range g.price_range

theorem matchesSpec_of_narrower {f g : FilterSpec} (hn : Narrower f g)
    (r : Record) (h : matchesSpec f r = true) : matchesSpec g r = true := by
  obtain ⟨hc, ha, ht, hr, hp⟩ := hn
  unfold matchesSpec at h ⊢
  simp only [Bool.and_eq_true] at h ⊢
  obtain ⟨h1, h2, h3, h4, h5⟩ := h
  refine ⟨?_, ?_, ?_, ?_, ?_⟩
  · rcases hc with hc | hc
    · simp [hc]
    · rwa [← hc]
  · rcases ha with ha | ha
    · simp [ha]
    · rwa [← ha]
  · rcases ht with ht | ht
    · simp [ht]
    · rwa [← ht]
  · rcases hg : g.rating_range with _ | ⟨lo, hi⟩
    · simp
    · rw [hg] at hr
      obtain ⟨lo2, hi2, hf2, hl, hh⟩ := hr
      rw [hf2] at h4
      simp only [Bool.and_eq_true, decide_eq_true_eq] at h4 ⊢
      exact ⟨le_trans hl h4.1, le_trans h4.2 hh⟩
  · rcases hg : g.price_range with _ | ⟨lo, hi⟩
    · simp
    · rw [hg] at hp
      obtain ⟨lo2, hi2, hf2, hl, hh⟩ := hp
      rw [hf2] at h5
      cases hpr : r.price with
      | none => rw [hpr] at h5; simp at h5
      | some p =>
          rw [hpr] at h5
          simp only [Bool.and_eq_true, decide_eq_true_eq] at h5 ⊢
          exact ⟨le_trans hl h5.1, le_trans h5.2 hh⟩

/-- C5: narrowing a Filter Specification — adding a categorical constraint
to a dimension the original spec leaves inactive, or shrinking a range
interval — never increases the size of the Filtered Subset. -/
theorem narrowing_shrinks_subset (ds : List Record) (f g : FilterSpec)
    (hn : Narrower f g) :
    (filterData ds f).length ≤ (filterData ds g).length := by
  rw [filterData_eq, filterData_eq]
  exact (List.monotone_filter_right ds
    (fun r hr => matchesSpec_of_narrower hn r hr)).length_le

/-- Witness for C5: constraining the city to Delhi narrows the all-absent
spec and shrinks the fixture subset. -/
theorem narrowing_shrinks_subset_witness :
    Narrower fCityDelhi fNone ∧
      (filterData exampleDs fCityDelhi).length ≤ (filterData exampleDs fNone).length := by
  have hn : Narrower fCityDelhi fNone :=
    ⟨Or.inl rfl, Or.inl rfl, Or.inl rfl, trivial, trivial⟩
  exact ⟨hn, narrowing_shrinks_subset exampleDs fCityDelhi fNone hn⟩

/-- C6: the loader fails, with an error listing exactly the missing
required fields, if and only if at least one required column is absent
after name normalization; on failure no Dataset is produced. -/
theorem schema_check_fails_iff_missing (cols : List String) (rows : List RawRow) :
    (loadDataset cols rows = Except.error (missingCols cols) ↔ missingCols cols ≠ []) ∧
    (missingCols cols ≠ [] → ∀ d, loadDataset cols rows ≠ Except.ok d) ∧
    (missingCols cols = [] ↔ ∀ c ∈ required_cols, c ∈ cols.map normalizeCol) := by
  refine ⟨?_, ?_, ?_⟩
  · unfold loadDataset
    cases hm : (missingCols cols).isEmpty
    · have hne : missingCols cols ≠ [] := by
        intro hnil
        rw [hnil] at hm
        simp at hm
      simp [hm, hne]
    · have heq : missingCols cols = [] := List.isEmpty_iff.mp hm
      simp [hm, heq]
  · intro hne d
    unfold loadDataset
    have hm : (missingCols cols).isEmpty = false := by
      simp [List.isEmpty_iff, hne]
    simp [hm]
  · unfold missingCols
    rw [List.filter_eq_nil_iff]
    constructor
    · intro hall c hc
      have := hall c hc
      simpa using this
    · intro hall c hc
      simpa using hall c hc

/-- Witness for C6: a header lacking any price column makes the load fail
and lists exactly ["price"]. -/
theorem schema_check_fails_iff_missing_witness :
    missingCols ["City ", "Area", "Restaurant", "Avg Ratings", "Delivery Time",
        "Food Type"] ≠ [] ∧
      loadDataset ["City ", "Area", "Restaurant", "Avg Ratings", "Delivery Time",
        "Food Type"] [] ≠ Except.ok [] :=
  ⟨by decide,
    (schema_check_fails_iff_missing ["City ", "Area", "Restaurant", "Avg Ratings",
      "Delivery Time", "Food Type"] []).2.1 (by decide) []⟩

theorem firstDigitRun_eq_none (l : List Char) :
    firstDigitRun l = none ↔ ∀ ch ∈ l, ch.isDigit = false := by
  induction l with
  | nil => simp [firstDigitRun]
  | cons ch cs ih =>
      by_cases hd : ch.isDigit
      · simp [firstDigitRun, hd]
      · simp only [Bool.not_eq_true] at hd
        simp [firstDigitRun, hd, ih]

/-- C7: `delivery_time` normalization extracts the first run of digits and
converts it to a number ("35 mins" to 35, "120" to 120); a value with no
digit character yields null, and the normalization is a total function, so
it never raises. -/
theorem delivery_time_digit_extraction (s : String) :
    deliveryTimeNorm "35 mins" = some 35 ∧
    deliveryTimeNorm "120" = some 120 ∧
    deliveryTimeNorm "N/A" = none ∧
    (deliveryTimeNorm s = none ↔ ∀ ch ∈ s.data, ch.isDigit = false) := by
  refine ⟨by decide, by decide, by decide, ?_⟩
  unfold deliveryTimeNorm
  rw [Option.map_eq_none']
  exact firstDigitRun_eq_none s.data

/-- Witness for C7 on a digit-free input. -/
theorem delivery_time_digit_extraction_witness :
    deliveryTimeNorm "xyz" = none :=
  (delivery_time_digit_extraction "xyz").2.2.2.mpr (by decide)

/-- C8: price coercion parses numeric text ("249" to 249) and turns an
unparseable value ("abc") into null; it is total and a row with any price
cell is still loaded — its Record simply carries the coerced (possibly
null) price — so price coercion never fails the load. -/
theorem price_coercion_total (row : RawRow) (a : Rat)
    (h : row.avg_ratings = some a) :
    parseNumeric "249" = some 249 ∧
    parseNumeric "abc" = none ∧
    ∃ rec, rowToRecord row = some rec ∧
      rec.price = row.price.bind parseNumeric ∧ rec.avg_ratings = a := by
  refine ⟨by decide, by decide, ?_⟩
  refine ⟨{ city := row.city, area := row.area, restaurant := row.restaurant,
            food_type := row.food_type, avg_ratings := a,
            price := row.price.bind parseNumeric,
            delivery_time := deliveryTimeNorm (row.delivery_time.getD "nan") },
          ?_, rfl, rfl⟩
  unfold rowToRecord
  rw [h]
  rfl

/-- Witness for C8: a row with unparseable price text is still loaded. -/
theorem price_coercion_total_witness :
    (⟨some "C", some "A", some "R", some "F", some 4, some "abc",
        some "N/A"⟩ : RawRow).avg_ratings = some 4 ∧
      (rowToRecord ⟨some "C", some "A", some "R", some "F", some 4, some "abc",
        some "N/A"⟩).isSome = true := by
  have h := (price_coercion_total
    ⟨some "C", some "A", some "R", some "F", some 4, some "abc", some "N/A"⟩ 4 rfl).2.2
  obtain ⟨rec, hrec, _, _⟩ := h
  exact ⟨rfl, by rw [hrec]; rfl⟩

theorem sortedOptions_pairwise (l : List (Option String)) :
    (sortedOptions l).Pairwise (· < ·) := by
  have hs : (sortedOptions l).Sorted (fun x y : String => x ≤ y) :=
    List.sorted_insertionSort _ _
  have hn : (sortedOptions l).Nodup :=
    ((l.filterMap id).dedup.perm_insertionSort (fun x y : String => x ≤ y)).symm.nodup
      ((l.filterMap id).nodup_dedup)
  exact hs.lt_of_le hn

theorem mem_sortedOptions {l : List (Option String)} {x : String} :
    x ∈ sortedOptions l ↔ some x ∈ l := by
  simp [sortedOptions, List.mem_insertionSort, List.mem_dedup, List.mem_filterMap]

/-- C9: for a non-empty Filtered Subset, each Dependent Option Set is the
strictly sorted (hence distinct) list of exactly the non-null values of its
column within the subset: a null `area`/`food_type` contributes nothing,
and membership is equivalent to occurrence of the non-null value. -/
theorem option_sets_sorted_distinct_nonnull (ds : List Record) (f : FilterSpec)
    (h : filterData ds f ≠ []) :
    ((update_dashboard ds f).area_options.Pairwise (· < ·) ∧
      ∀ x, x ∈ (update_dashboard ds f).area_options ↔
        some x ∈ (filterData ds f).map Record.area) ∧
    ((update_dashboard ds f).food_options.Pairwise (· < ·) ∧
      ∀ x, x ∈ (update_dashboard ds f).food_options ↔
        some x ∈ (filterData ds f).map Record.food_type) := by
  have hne : (filterData ds f).isEmpty = false := by
    simpa [List.isEmpty_iff] using h
  have harea : (update_dashboard ds f).area_options =
      sortedOptions ((filterData ds f).map (·.area)) := by
    simp [update_dashboard, hne]
  have hfood : (update_dashboard ds f).food_options =
      sortedOptions ((filterData ds f).map (·.food_type)) := by
    simp [update_dashboard, hne]
  refine ⟨⟨?_, ?_⟩, ?_, ?_⟩
  · rw [harea]
    exact sortedOptions_pairwise _
  · intro x
    rw [harea]
    exact mem_sortedOptions
  · rw [hfood]
    exact sortedOptions_pairwise _
  · intro x
    rw [hfood]
    exact mem_sortedOptions

/-- Witness for C9 on the fixture dataset with no filters active. -/
theorem option_sets_sorted_distinct_nonnull_witness :
    filterData exampleDs fNone ≠ [] ∧
      ((update_dashboard exampleDs fNone).area_options.Pairwise (· < ·) ∧
        ∀ x, x ∈ (update_dashboard exampleDs fNone).area_options ↔
          some x ∈ (filterData exampleDs fNone).map Record.area) :=
  ⟨by decide, (option_sets_sorted_distinct_nonnull exampleDs fNone (by decide)).1⟩

/-- C10: a categorical filter field supplied as the empty string behaves
exactly like an absent field — the truthiness guard skips the equality
filter — so the Filtered Subset (and the whole EngineResult) coincides
with the absent-field evaluation on every dataset. -/
theorem empty_string_filter_like_absent (ds : List Record) (f : FilterSpec) :
    filterData ds { f with city := some "" } = filterData ds { f with city := none } ∧
    filterData ds { f with area := some "" } = filterData ds { f with area := none } ∧
    filterData ds { f with food_type := some "" } =
      filterData ds { f with food_type := none } ∧
    update_dashboard ds { f with city := some "" } =
      update_dashboard ds { f with city := none } :=
  ⟨rfl, rfl, rfl, rfl⟩

end Swiggy
